import Mathlib

/-!
Verification development for the SwarmPAL dashboard repository.

Shallow embedding of the reactive state-and-caching controller of the two
dashboards (src/dashboards/TFA.py and src/dashboards/DSECS.py): the config
builder, the fetch/process controller with its single-slot cache, the render
fallback chain, and the animation player.  External collaborators (the
swarmpal library, jinja templating, xarray reprs, matplotlib figures) are
modelled as abstract function fields of an environment record; exceptions are
modelled by Except / an Option String error component threaded through each
handler; the in-place dataset mutation performed by apply_processes is
modelled by returning the (possibly partially processed) dataset state
together with the error.
-/

namespace TFA

/-- Embedding of one entry of the process_params list built by
TFA_GUI.make_config (src/dashboards/TFA.py lines 389-414).  Each constructor
carries exactly the parameter fields of the corresponding dict; Python floats
are modelled as Rat. -/
inductive ProcStep where
  | preprocess (dataset : String) (active_variable : String)
      (active_component : Int) (sampling_rate : Rat) (remove_model : Bool)
  | clean (window_size : Int) (method : String) (multiplier : Rat)
  | filter (cutoff_frequency : Rat)
  | wavelet (min_frequency : Rat) (max_frequency : Rat) (dj : Rat)
  deriving DecidableEq, Repr

/-- Process name string of a step, as written in the config dicts. -/
def ProcStep.name : ProcStep → String
  | .preprocess _ _ _ _ _ => "TFA_Preprocess"
  | .clean _ _ _ => "TFA_Clean"
  | .filter _ => "TFA_Filter"
  | .wavelet _ _ _ => "TFA_Wavelet"

/-- Embedding of the data_params entry built by _make_vires_data_params /
_make_cdf_data_params (src/dashboards/TFA.py lines 348-372). -/
inductive DataParams where
  | vires (collection : String) (measurements : List String)
      (models : List String) (auxiliaries : List String)
      (start_time : String) (end_time : String)
      (pad_times : List String) (server_url : String)
  | file (filename : String) (filetype : String) (dataset : String)
  deriving DecidableEq, Repr

/-- Embedding of the dict returned by TFA_GUI.make_config. -/
structure Config where
  data_params : List DataParams
  process_params : List ProcStep
  deriving DecidableEq, Repr

/-- Snapshot of the TFA widget values read by the controller.  Datetimes are
carried as their isoformat strings (the only form the code uses).
data_tabs is None until the sidebar is built, hence an Option. -/
structure Widgets where
  spacecraft : String
  startTimeIso : String
  endTimeIso : String
  preprocessActiveComponent : Int
  preprocessSamplingRate : Rat
  cleanWindowSize : Int
  cleanMultiplier : Rat
  cleanMethod : String
  filterCutoff : Rat
  waveletMinFrequency : Rat
  waveletMaxFrequency : Rat
  waveletDj : Rat
  fileDropperValue : Bool
  fileDropperFileName : String
  fileDropperTempName : String
  dataTabsActive : Option Nat
  deriving DecidableEq, Repr

/-- TFA_GUI._using_cdf_input: False when data_tabs is None, else whether the
active tab index is 1. -/
def using_cdf_input (w : Widgets) : Bool :=
  match w.dataTabsActive with
  | none => false
  | some i => i = 1

/-- Stem of a path: final component without its last suffix, as
pathlib.Path(...).stem.  The suffix is dropped only when the final dot is not
the leading character of the base name. -/
def stem_chars (cs : List Char) : List Char :=
  match (cs.reverse.dropWhile (fun c => c ≠ '.')) with
  | [] => cs
  | _ :: rest => if rest = [] then cs else rest.reverse

/-- pathlib.Path(filename).stem as used in _get_data_product. -/
def path_stem (p : String) : String :=
  let base := (p.splitOn "/").getLastD p
  ⟨stem_chars base.toList⟩

/-- Whether the character list starts with the pattern underscore, eight
digits, the letter T, six digits — the regex used in _get_data_product. -/
def matches_ts_at (cs : List Char) : Bool :=
  match cs with
  | '_' :: rest =>
      decide ((rest.take 8).length = 8) && (rest.take 8).all Char.isDigit &&
      (match rest.drop 8 with
       | 'T' :: rest2 =>
           decide ((rest2.take 6).length = 6) && (rest2.take 6).all Char.isDigit
       | _ => false)
  | _ => false

/-- Characters before the first match of the timestamp pattern; the regex
substitution removes the match and everything after it. -/
def truncate_chars : List Char → List Char
  | [] => []
  | c :: rest => if matches_ts_at (c :: rest) then [] else c :: truncate_chars rest

/-- re.sub of the timestamp-and-version tail, as in _get_data_product. -/
def truncate_product_name (s : String) : String :=
  ⟨truncate_chars s.toList⟩

/-- TFA_GUI._get_data_product (src/dashboards/TFA.py lines 331-346). -/
def get_data_product (w : Widgets) : String :=
  if using_cdf_input w then
    truncate_product_name (path_stem w.fileDropperFileName)
  else if w.spacecraft = "Swarm-A" then "SW_OPER_MAGA_LR_1B"
  else if w.spacecraft = "Swarm-B" then "SW_OPER_MAGB_LR_1B"
  else if w.spacecraft = "Swarm-C" then "SW_OPER_MAGC_LR_1B"
  else "SW_OPER_MAGA_LR_1B"

/-- TFA_GUI._make_vires_data_params (lines 348-360). -/
def make_vires_data_params (w : Widgets) : List DataParams :=
  [ .vires (get_data_product w) ["B_NEC"]
      ["Model=\x27CHAOS-Core\x27+\x27CHAOS-Static\x27"] ["QDLat", "MLT"]
      w.startTimeIso w.endTimeIso ["03:00:00", "03:00:00"]
      "https://vires.services/ows" ]

/-- TFA_GUI._make_cdf_data_params (lines 363-372). -/
def make_cdf_data_params (w : Widgets) : List DataParams :=
  [ .file w.fileDropperTempName "cdf" (get_data_product w) ]

/-- TFA_GUI._make_data_params (lines 379-383). -/
def make_data_params (w : Widgets) : List DataParams :=
  if using_cdf_input w then make_cdf_data_params w else make_vires_data_params w

/-- TFA_GUI.make_config (lines 385-418): data params plus the fixed ordered
chain Preprocess, Clean, Filter, Wavelet with the current widget values. -/
def make_config (w : Widgets) : Config :=
  { data_params := make_data_params w
  , process_params :=
      [ .preprocess (get_data_product w) "B_NEC"
          w.preprocessActiveComponent w.preprocessSamplingRate false
      , .clean w.cleanWindowSize w.cleanMethod w.cleanMultiplier
      , .filter w.filterCutoff
      , .wavelet w.waveletMinFrequency w.waveletMaxFrequency w.waveletDj ] }

/-- Model of a swarmpal dataset handle (an xarray DataTree): an opaque content
identity produced by the fetch, the ordered list of processing steps applied
so far by swarmpal.apply_processes, and its Python truthiness. -/
structure Dataset where
  content : Nat
  applied : List ProcStep
  nonempty : Bool
  deriving DecidableEq, Repr

/-- Model of a rendered matplotlib quicklook figure: the dataset it was
rendered from and the tlims strings passed to the plotting collaborator. -/
structure Fig where
  data : Dataset
  tlim0 : String
  tlim1 : String
  deriving DecidableEq, Repr

/-- External collaborators of the TFA controller: the vires/file fetch, the
processing-step executor (whether a step raises on a given dataset), the
html repr, the quicklook plotter, and the jinja/pprint/yaml templating used
for the code and CLI snippets.  Each is an arbitrary function so theorems
quantify over every possible collaborator behaviour. -/
structure Env where
  fetchResult : Except String Nat
  fetchNonempty : Bool
  stepFails : Dataset → ProcStep → Bool
  reprHtmlFails : Dataset → Bool
  reprHtmlOf : Dataset → String
  quicklookFails : Dataset → Bool
  quicklookOf : Dataset → String × String → Fig
  pprinterOf : Config → String
  yamlOf : Config → String
  viresTemplate : String → String
  cliTemplate : String → String

/-- swarmpal.apply_processes: applies the steps left to right, mutating the
dataset in place.  Returns the final dataset state together with the name of
the step that raised, if any; on a raise the already-applied prefix remains
applied (the in-place partial mutation of the Python call). -/
def apply_processes (env : Env) : Dataset → List ProcStep → Dataset × Option String
  | d, [] => (d, none)
  | d, s :: rest =>
      if env.stepFails d s then (d, some s.name)
      else apply_processes env { d with applied := d.applied ++ [s] } rest

/-- State of the TFA_GUI panes and retained data handles. -/
structure GuiState where
  rawData : Option Dataset
  data : Option Dataset
  dataView : Option String
  codeSnippet : Option String
  cliCommand : Option String
  quicklook : Option Fig
  outputTitle : Option String
  logs : List (String × String)
  isLoading : Bool
  deriving DecidableEq, Repr

/-- The dict stored in pn.state.cache under the key tfa_precache. -/
structure CacheEntry where
  raw_data : Option Dataset
  data : Option Dataset
  figure : Option Fig
  data_view : Option String
  code_snippet : Option String
  cli_command : Option String
  deriving DecidableEq, Repr

/-- Process-wide state: the single-slot cache shared by all sessions of the
running server process, the GUI state of the current session, and an
instrumentation counter of fetch I/O attempts. -/
structure ProcState where
  cache : Option CacheEntry
  gui : GuiState
  fetchCount : Nat
  deriving DecidableEq, Repr

/-- TFA_GUI.log: appends one (level, message) entry to the log pane. -/
def logMsg (level msg : String) (g : GuiState) : GuiState :=
  { g with logs := g.logs ++ [(level, msg)] }

/-- TFA_GUI.set_loading. -/
def set_loading (b : Bool) (g : GuiState) : GuiState :=
  { g with isLoading := b }

/-- TFA_GUI.replace_file_paths (lines 515-521). -/
def replace_file_paths (w : Widgets) (s : String) : String :=
  if using_cdf_input w then
    s.replace w.fileDropperTempName w.fileDropperFileName
  else s

/-- TFA_GUI.get_vires_code (lines 523-536): pprint the config, rewrite temp
file paths, render the jinja template and wrap in a python fence. -/
def get_vires_code (env : Env) (w : Widgets) : String :=
  "```python\n" ++
    env.viresTemplate (replace_file_paths w (env.pprinterOf (make_config w)))
    ++ "\n```"

/-- TFA_GUI.get_cli (lines 542-554): yaml-dump the config, rewrite temp file
paths, render the CLI jinja template. -/
def get_cli (env : Env) (w : Widgets) : String :=
  env.cliTemplate (replace_file_paths w (env.yamlOf (make_config w)))

/-- Common exit of the except branches of update_input_data and
update_analysis: log the error text plus the traceback, run the finally
clause (clear the loading flag) and re-raise the error. -/
def raise_exit (prefixMsg e : String) (s : ProcState) (g : GuiState) :
    ProcState × Option String :=
  let g := logMsg "error" (prefixMsg ++ e) g
  let g := logMsg "error" "traceback" g
  ({ s with gui := set_loading false g }, some e)

/-- TFA_GUI.update_analysis (src/dashboards/TFA.py lines 452-506).  The
returned Option String is the exception re-raised out of the handler, none
when the handler returns normally. -/
def update_analysis (env : Env) (w : Widgets) (title : String)
    (s : ProcState) : ProcState × Option String :=
  match s.gui.rawData with
  | none =>
      let g := { s.gui with outputTitle := some "Please fetch data first" }
      let g := logMsg "warning" "No data available for analysis" g
      ({ s with gui := g }, none)
  | some raw =>
      let g := set_loading true s.gui
      let g := logMsg "info" "Running analysis with current parameters..." g
      let config := make_config w
      let res := apply_processes env raw config.process_params
      let g := { g with data := some res.1 }
      match res.2 with
      | some e => raise_exit "Error during analysis: " e s g
      | none =>
          let d2 := res.1
          let g := { g with outputTitle := some title }
          let g := { g with cliCommand := some (get_cli env w) }
          let g := { g with codeSnippet := some (get_vires_code env w) }
          if ¬ d2.nonempty then ({ s with gui := set_loading false g }, none)
          else if env.reprHtmlFails d2 then
            raise_exit "Error during analysis: " "repr-html-error" s g
          else
            let g := { g with dataView := some (env.reprHtmlOf d2) }
            if using_cdf_input w then
              let g := logMsg "success" "Analysis complete (CDF mode)" g
              ({ s with gui := set_loading false g }, none)
            else
              let g := logMsg "info" "Generating quicklook plot..." g
              if env.quicklookFails d2 then
                raise_exit "Error during analysis: " "quicklook-error" s g
              else
                let fig := env.quicklookOf d2 (w.startTimeIso, w.endTimeIso)
                let g := { g with quicklook := some fig }
                let g := logMsg "success" "Analysis complete" g
                ({ s with gui := set_loading false g }, none)

/-- TFA_GUI.update_input_data (src/dashboards/TFA.py lines 420-450).  The
raw handle is assigned as soon as the fetch returns, before any processing;
the deep copy gives the processed handle value semantics; a success falls
through to update_analysis.  The returned Option String is the exception
propagating out of the handler. -/
def update_input_data (env : Env) (w : Widgets) (s : ProcState) :
    ProcState × Option String :=
  if using_cdf_input w ∧ ¬ w.fileDropperValue then (s, none)
  else
    let g := set_loading true s.gui
    let g := logMsg "info" "Fetching input data..." g
    let config := make_config w
    match env.fetchResult with
    | .error e =>
        let r := raise_exit "Error fetching data: " e s g
        ({ r.1 with fetchCount := r.1.fetchCount + 1 }, r.2)
    | .ok content =>
        let raw : Dataset :=
          { content := content, applied := [], nonempty := env.fetchNonempty }
        let g := { g with rawData := some raw }
        let dataCopy := raw
        let g := { g with data := some dataCopy }
        let g := logMsg "info" "Applying processes..." g
        let res := apply_processes env dataCopy config.process_params
        let g := { g with data := some res.1 }
        let s1 : ProcState := { s with fetchCount := s.fetchCount + 1 }
        match res.2 with
        | some e => raise_exit "Error fetching data: " e s1 g
        | none =>
            let d2 := res.1
            if env.reprHtmlFails d2 then
              raise_exit "Error fetching data: " "repr-html-error" s1 g
            else
              let g := { g with dataView := some (env.reprHtmlOf d2) }
              let g := { g with codeSnippet := some (get_vires_code env w) }
              let g := logMsg "success" "Data fetched and processed successfully" g
              let g := set_loading false g
              update_analysis env w "# SwarmPAL TFA Quicklook" { s1 with gui := g }

/-- TFA_GUI._load_initial_data (lines 215-235): run update_input_data; on
success store the current handles and pane objects into the single cache
slot; any exception is caught and logged. -/
def load_initial_data (env : Env) (w : Widgets) (s : ProcState) :
    ProcState × Option String :=
  let g := logMsg "info" "Starting TFA dashboard..." s.gui
  let r := update_input_data env w { s with gui := g }
  match r.2 with
  | some e =>
      let g := logMsg "error" ("Failed to load initial data: " ++ e) r.1.gui
      let g := logMsg "error" "traceback" g
      ({ r.1 with gui := g }, none)
  | none =>
      let s1 := r.1
      let entry : CacheEntry :=
        { raw_data := s1.gui.rawData
        , data := s1.gui.data
        , figure := s1.gui.quicklook
        , data_view := s1.gui.dataView
        , code_snippet := s1.gui.codeSnippet
        , cli_command := s1.gui.cliCommand }
      let g := logMsg "success" "Dashboard initialized successfully" s1.gui
      ({ s1 with cache := some entry, gui := g }, none)

/-- Fresh pane state of a newly constructed TFA_GUI, before any data load. -/
def initGui : GuiState :=
  { rawData := none, data := none, dataView := none, codeSnippet := none
  , cliCommand := none, quicklook := none, outputTitle := none
  , logs := [], isLoading := false }

/-- Data-loading part of TFA_GUI.__init__ (lines 193-213): a session starts
with fresh panes; when the cache slot is populated, the handles and panes are
restored from it without any fetch or processing; otherwise
_load_initial_data runs. -/
def gui_init (env : Env) (w : Widgets) (s : ProcState) :
    ProcState × Option String :=
  let s := { s with gui := initGui }
  match s.cache with
  | some cached =>
      let g := logMsg "info" "Loading from cache..." s.gui
      let g := { g with rawData := cached.raw_data, data := cached.data }
      let g := { g with quicklook := cached.figure, dataView := cached.data_view }
      let g := { g with codeSnippet := cached.code_snippet }
      let g := { g with cliCommand := cached.cli_command }
      let g := { g with outputTitle := some "# SwarmPAL TFA Quicklook" }
      let g := logMsg "success" "Loaded from cache successfully" g
      ({ s with gui := g }, none)
  | none => load_initial_data env w s

/-- The hard-coded default config of _populate_tfa_cache
(src/dashboards/TFA.py lines 565-603). -/
def default_config : Config :=
  { data_params :=
      [ .vires "SW_OPER_MAGA_LR_1B" ["B_NEC"]
          ["Model=\x27CHAOS-Core\x27+\x27CHAOS-Static\x27"] ["QDLat", "MLT"]
          "2026-01-01T00:00:00" "2026-01-02T00:00:00"
          ["03:00:00", "03:00:00"] "https://vires.services/ows" ]
  , process_params :=
      [ .preprocess "SW_OPER_MAGA_LR_1B" "B_NEC" 2 1 false
      , .clean 300 "iqr" 0.5
      , .filter 0.02
      , .wavelet 0.02 0.1 0.1 ] }

/-- Widget snapshot at the declared widget default values, with data_tabs
still None (the state during startup, before the sidebar is built). -/
def default_widgets : Widgets :=
  { spacecraft := "Swarm-A"
  , startTimeIso := "2026-01-01T00:00:00"
  , endTimeIso := "2026-01-02T00:00:00"
  , preprocessActiveComponent := 2
  , preprocessSamplingRate := 1
  , cleanWindowSize := 300
  , cleanMultiplier := 0.5
  , cleanMethod := "iqr"
  , filterCutoff := 0.02
  , waveletMinFrequency := 0.02
  , waveletMaxFrequency := 0.1
  , waveletDj := 0.1
  , fileDropperValue := false
  , fileDropperFileName := ""
  , fileDropperTempName := ""
  , dataTabsActive := none }

/-- _populate_tfa_cache (lines 558-638): when the cache slot is empty, fetch
and process with the hard-coded default config, render the quicklook, and
store the result together with placeholder snippet strings; every exception
is caught and only printed, leaving the slot empty. -/
def populate_tfa_cache (env : Env) (s : ProcState) : ProcState :=
  match s.cache with
  | some _ => s
  | none =>
      match env.fetchResult with
      | .error _ => { s with fetchCount := s.fetchCount + 1 }
      | .ok content =>
          let raw : Dataset :=
            { content := content, applied := [], nonempty := env.fetchNonempty }
          let res := apply_processes env raw default_config.process_params
          let s1 : ProcState := { s with fetchCount := s.fetchCount + 1 }
          match res.2 with
          | some _ => s1
          | none =>
              let d2 := res.1
              if env.quicklookFails d2 ∨ env.reprHtmlFails d2 then s1
              else
                let fig := env.quicklookOf d2
                  ("2026-01-01T00:00:00", "2026-01-02T00:00:00")
                let entry : CacheEntry :=
                  { raw_data := some raw
                  , data := some d2
                  , figure := some fig
                  , data_view := some (env.reprHtmlOf d2)
                  , code_snippet :=
                      some "# Code snippet will be generated on first use"
                  , cli_command :=
                      some "# CLI command will be generated on first use" }
                { s1 with cache := some entry }

/-- Module-level startup of src/dashboards/TFA.py (lines 637-640): the
precache runs first, then the TFA_GUI session is constructed. -/
def module_start (env : Env) (w : Widgets) (s : ProcState) :
    ProcState × Option String :=
  gui_init env w (populate_tfa_cache env s)

end TFA

namespace DSECS

/-- Model of one rendered matplotlib figure of the DSECS quicklook. -/
structure Fig where
  id : Nat
  deriving DecidableEq, Repr

/-- Contents of the swarmpal_animated pane: unset at construction, a frame
figure, or the pending placeholder figure. -/
inductive AnimPane where
  | noneYet
  | fig (f : Fig)
  | placeholder
  deriving DecidableEq, Repr

/-- State of the animation player of DsecsDataExplorer: the
animation_figures dict (an insertion-ordered association list frameId to
figure), the playing flag, the periodic callback (none, or active with the
frames list captured by the advance_frame closure when it was registered),
and the frame slider and play button widget state. -/
structure AnimSt where
  figures : List (Nat × Fig)
  playing : Bool
  callback : Option (List Nat)
  sliderValue : Nat
  sliderStart : Nat
  sliderEnd : Nat
  sliderDisabled : Bool
  playDisabled : Bool
  playName : String
  displayed : AnimPane
  deriving DecidableEq, Repr

/-- Keys of the figures dict, in insertion order. -/
def keyList (figs : List (Nat × Fig)) : List Nat := figs.map Prod.fst

/-- min() of a nonempty Python list (0 for the empty list, unreachable). -/
def minKey : List Nat → Nat
  | [] => 0
  | k :: ks => ks.foldl Nat.min k

/-- max() of a nonempty Python list (0 for the empty list, unreachable). -/
def maxKey : List Nat → Nat
  | [] => 0
  | k :: ks => ks.foldl Nat.max k

/-- DsecsDataExplorer._update_animation_frame: the watcher on the slider
value; shows the frame when the new value is a key of animation_figures. -/
def update_animation_frame (v : Nat) (st : AnimSt) : AnimSt :=
  match st.figures.lookup v with
  | some f => { st with displayed := .fig f }
  | none => st

/-- Assigning frame_slider.value: a param watcher fires only when the value
actually changes. -/
def set_slider_value (v : Nat) (st : AnimSt) : AnimSt :=
  if v = st.sliderValue then st
  else update_animation_frame v { st with sliderValue := v }

/-- DsecsDataExplorer._disable_animation_controls (lines 396-400). -/
def disable_animation_controls (st : AnimSt) : AnimSt :=
  { st with sliderDisabled := true, playDisabled := true
          , displayed := .placeholder }

/-- DsecsDataExplorer._setup_animated_quicklook (lines 359-394): store the
(resized) figures, then either configure and enable the slider and play
button and show the minimum-key frame, or disable the controls when the
frame set is empty.  Resizing is modelled as the identity on figures.  Note
the playing flag and the periodic callback are not touched. -/
def setup_animated_quicklook (figs : List (Nat × Fig)) (st : AnimSt) : AnimSt :=
  let st := { st with figures := figs }
  let frames := keyList figs
  if frames = [] then disable_animation_controls st
  else
    let mn := minKey frames
    let mx := maxKey frames
    let st := { st with sliderStart := mn, sliderEnd := mx, sliderDisabled := false }
    let st := set_slider_value mn st
    let st := { st with playDisabled := false }
    match figs.lookup mn with
    | some f => { st with displayed := .fig f }
    | none => st

/-- Body of the advance_frame closure of _start_animation (lines 429-438),
executed on each periodic-callback tick with the frames list captured at
registration time: index of the current slider value in that list (0 when
absent), advance one position cyclically, and assign the slider value. -/
def advance_frame (frames : List Nat) (st : AnimSt) : AnimSt :=
  if ¬ st.playing then st
  else
    let current := st.sliderValue
    let idx := if current ∈ frames then frames.indexOf current else 0
    let nextIdx := (idx + 1) % frames.length
    match frames.get? nextIdx with
    | some nf => set_slider_value nf st
    | none => st

/-- One tick of the 1200 ms periodic timer: runs the registered callback if
there is one. -/
def tick (st : AnimSt) : AnimSt :=
  match st.callback with
  | none => st
  | some fs => advance_frame fs st

/-- DsecsDataExplorer._start_animation (lines 423-441): returns early when
there are no frames, otherwise registers the periodic callback with the
current frames list captured. -/
def start_animation (st : AnimSt) : AnimSt :=
  let frames := keyList st.figures
  if frames = [] then st
  else { st with callback := some frames }

/-- DsecsDataExplorer._toggle_animation (lines 408-421). -/
def toggle_animation (st : AnimSt) : AnimSt :=
  if st.playing then
    let st := { st with playing := false, playName := "Play" }
    match st.callback with
    | some _ => { st with callback := none }
    | none => st
  else
    let st := { st with playing := true, playName := "Pause" }
    start_animation st

instance : DecidableEq (Except String String) := fun a b =>
  match a, b with
  | .ok x, .ok y =>
      decidable_of_iff (x = y) ⟨fun h => h ▸ rfl, fun h => by injection h⟩
  | .ok _, .error _ => .isFalse (fun h => Except.noConfusion h)
  | .error _, .ok _ => .isFalse (fun h => Except.noConfusion h)
  | .error x, .error y =>
      decidable_of_iff (x = y) ⟨fun h => h ▸ rfl, fun h => by injection h⟩

/-- Model of the dataset handle loaded into the DSECS explorer (an xarray
DataTree): the outcome of its html repr and of str() (an Except error models
a raising call), the rendered type name, the rendered attribute list when
the object has a dict attribute, and the str of its groups. -/
structure DataHandle where
  reprHtmlR : Except String String
  strR : Except String String
  typeName : String
  dictAttrs : Option String
  groupsStr : String
  deriving DecidableEq, Repr

/-- DsecsDataExplorer._update_data_view (src/dashboards/DSECS.py lines
323-343), as the pure value assigned to the data_view pane: the html repr,
falling back to the pre-wrapped str dump, falling back to a diagnostic with
the type and attributes; the no-data placeholder when nothing is loaded. -/
def update_data_view (data : Option DataHandle) : String :=
  match data with
  | none => "<p>No data loaded</p>"
  | some d =>
      match d.reprHtmlR with
      | .ok h => h
      | .error e =>
          match d.strR with
          | .ok s =>
              "<pre style=\x27white-space: pre-wrap; font-family: monospace; font-size: 12px; max-height: 400px; overflow-y: auto;\x27>"
                ++ s ++ "</pre>"
          | .error e2 =>
              let info := "❌ Error displaying data: " ++ e ++ "\n"
                ++ "Fallback error: " ++ e2 ++ "\n"
                ++ "Data type: " ++ d.typeName ++ "\n"
              let info :=
                match d.dictAttrs with
                | some attrs => info ++ "Attributes: " ++ attrs
                | none => info
              "<pre>" ++ info ++ "</pre>"

/-- Substring test on character lists, modelling the Python in operator on
strings. -/
def subOf (needle : List Char) : List Char → Bool
  | [] => decide (needle = [])
  | c :: rest => needle.isPrefixOf (c :: rest) || subOf needle rest

/-- Python needle in hay for strings. -/
def strContains (hay needle : String) : Bool :=
  subOf needle.toList hay.toList

/-- Model of the netcdf-dropper widget: its truthiness, and the outcomes of
reading temp_file.name and file_in_mem.name (either access can raise, e.g.
when materialising the temp file fails). -/
structure NcDropper where
  value : Bool
  tempFileNameR : Except String String
  fileInMemNameR : Except String String
  deriving Repr

/-- External collaborators of the DSECS explorer: open_datatree on the temp
file path, the quicklook figure renderer keyed by frame index, and the jinja
code-snippet template (taking the preprocessed and analyzed flags). -/
structure DsEnv where
  openDatatree : String → Except String DataHandle
  quicklookFigs : DataHandle → Except String (List (Nat × Fig))
  codeR : Bool → Bool → Except String String

/-- State of the DsecsDataExplorer panes and flags. -/
structure DsState where
  statusInfo : String
  data : Option DataHandle
  preprocessed : Bool
  analyzed : Bool
  dataViewPane : String
  codePane : String
  anim : AnimSt
  deriving Repr

/-- Pane-update form of _update_data_view: assigns the rendered string to the
data_view pane. -/
def update_data_view_st (st : DsState) : DsState :=
  { st with dataViewPane := update_data_view st.data }

/-- DsecsDataExplorer._update_quicklook (lines 345-357): only with data
present and analyzed; a raising plot call or an empty figure set become a
status message, otherwise the animated quicklook is set up. -/
def update_quicklook (env : DsEnv) (st : DsState) : DsState :=
  match st.data with
  | none => st
  | some d =>
      if st.analyzed then
        match env.quicklookFigs d with
        | .error e => { st with statusInfo := "⚠️ Plotting error: " ++ e }
        | .ok figs =>
            if figs = [] then
              { st with statusInfo := "⚠️ No figures generated from DSECS quicklook" }
            else { st with anim := setup_animated_quicklook figs st.anim }
      else st

/-- DsecsDataExplorer._update_code_snippet (lines 443-449): a raising
template render is caught and replaced by a fixed message. -/
def update_code_snippet (env : DsEnv) (st : DsState) : DsState :=
  match env.codeR st.preprocessed st.analyzed with
  | .ok c => { st with codePane := "```python\n" ++ c ++ "\n```" }
  | .error _ => { st with codePane := "Code snippet generation failed" }

/-- Except branch of load_netcdf_data (lines 219-223).  The f-string of the
status message reads the local variable filename; when the exception was
raised before that local was assigned, the handler itself raises
UnboundLocalError, which propagates out of the on_click handler. -/
def load_handler (e : String) (filenameLocal : Option String)
    (st : DsState) : DsState × Option String :=
  match filenameLocal with
  | none => (st, some "UnboundLocalError: filename")
  | some fn =>
      ({ st with statusInfo :=
          "❌ **Failed to load file \x27" ++ fn ++ "\x27:** " ++ e
            ++ "<br><details><summary>Click for details</summary><pre>traceback</pre></details>" }
      , none)

/-- DsecsDataExplorer.load_netcdf_data (src/dashboards/DSECS.py lines
176-223).  The Option String of the result is the exception escaping the
handler (only possible from the except block itself). -/
def load_netcdf_data (env : DsEnv) (drop : NcDropper) (st : DsState) :
    DsState × Option String :=
  if ¬ drop.value then
    ({ st with statusInfo := "⚠️ Please upload a NetCDF file first" }, none)
  else
    match drop.tempFileNameR with
    | .error e => load_handler e none st
    | .ok file_path =>
        match drop.fileInMemNameR with
        | .error e => load_handler e none st
        | .ok filename =>
            let st := { st with statusInfo :=
              "🔄 Loading file: " ++ filename ++ "..." }
            match env.openDatatree file_path with
            | .error e => load_handler e (some filename) st
            | .ok d =>
                let st := { st with data := some d }
                match d.strR with
                | .error e => load_handler e (some filename) st
                | .ok _ =>
                    let groups_str := d.groupsStr
                    if strContains groups_str "DSECS_output"
                        || strContains groups_str "currents" then
                      let st := { st with preprocessed := true, analyzed := true }
                      let st := { st with statusInfo :=
                        "✅ **Pre-computed DSECS results loaded successfully!**" }
                      let st := update_data_view_st st
                      let st := update_quicklook env st
                      (update_code_snippet env st, none)
                    else
                      let st := { st with preprocessed := false, analyzed := false }
                      let st := { st with statusInfo :=
                        "✅ Raw data loaded from NetCDF (ready for processing" }
                      let st := update_data_view_st st
                      (update_code_snippet env st, none)

end DSECS

namespace TFA

/-- When no step of the chain raises, apply_processes appends the whole chain
to the dataset and reports no error. -/
theorem apply_processes_ok (env : Env) (hok : ∀ d s, env.stepFails d s = false) :
    ∀ (steps : List ProcStep) (d : Dataset),
      apply_processes env d steps = ({ d with applied := d.applied ++ steps }, none) := by
  intro steps
  induction steps with
  | nil => intro d; simp [apply_processes]
  | cons s rest ih =>
      intro d
      simp [apply_processes, hok, ih]

/-- apply_processes that reports no error has applied the whole chain. -/
theorem apply_processes_none (env : Env) :
    ∀ (steps : List ProcStep) (d : Dataset),
      (apply_processes env d steps).2 = none →
      (apply_processes env d steps).1 = { d with applied := d.applied ++ steps } := by
  intro steps
  induction steps with
  | nil => intro d _; simp [apply_processes]
  | cons s rest ih =>
      intro d h
      by_cases hf : env.stepFails d s
      · simp [apply_processes, hf] at h
      · simp only [apply_processes, hf, if_false, Bool.false_eq_true] at h ⊢
        rw [ih _ h]
        simp

/-- update_analysis never touches the cache slot, the fetch counter or the
raw handle. -/
theorem update_analysis_frame (env : Env) (w : Widgets) (title : String)
    (s : ProcState) :
    (update_analysis env w title s).1.cache = s.cache ∧
    (update_analysis env w title s).1.fetchCount = s.fetchCount ∧
    (update_analysis env w title s).1.gui.rawData = s.gui.rawData := by
  unfold update_analysis
  cases h : s.gui.rawData with
  | none => simp [logMsg, h]
  | some raw =>
      simp only [logMsg, set_loading, raise_exit, h]
      repeat' split
      all_goals simp [h]

/-- Cache-slot projection of update_analysis_frame. -/
theorem update_analysis_cache (env : Env) (w : Widgets) (title : String)
    (s : ProcState) :
    (update_analysis env w title s).1.cache = s.cache :=
  (update_analysis_frame env w title s).1

/-- Fetch-counter projection of update_analysis_frame: reprocess performs no
fetch I/O. -/
theorem update_analysis_fetchCount (env : Env) (w : Widgets) (title : String)
    (s : ProcState) :
    (update_analysis env w title s).1.fetchCount = s.fetchCount :=
  (update_analysis_frame env w title s).2.1

/-- Raw-handle projection of update_analysis_frame. -/
theorem update_analysis_rawData (env : Env) (w : Widgets) (title : String)
    (s : ProcState) :
    (update_analysis env w title s).1.gui.rawData = s.gui.rawData :=
  (update_analysis_frame env w title s).2.2

/-- A failing update_analysis run appends the error and traceback log
entries and clears the loading flag before re-raising. -/
theorem update_analysis_fail (env : Env) (w : Widgets) (title : String)
    (s : ProcState) (e : String)
    (hfail : (update_analysis env w title s).2 = some e) :
    ("error", "Error during analysis: " ++ e) ∈
      (update_analysis env w title s).1.gui.logs ∧
    ("error", "traceback") ∈ (update_analysis env w title s).1.gui.logs ∧
    (update_analysis env w title s).1.gui.isLoading = false ∧
    (∀ raw, s.gui.rawData = some raw →
      (update_analysis env w title s).1.gui.data =
        some (apply_processes env raw (make_config w).process_params).1) := by
  unfold update_analysis at hfail ⊢
  cases h : s.gui.rawData with
  | none => simp [h, logMsg] at hfail
  | some raw =>
      simp only [h, logMsg, set_loading, raise_exit] at hfail ⊢
      repeat' split at hfail
      all_goals simp_all

/-- A successful update_analysis run with raw present has replaced the
processed handle by a fresh copy of raw with the full chain applied,
refreshed both snippets and cleared the loading flag. -/
theorem update_analysis_success (env : Env) (w : Widgets) (title : String)
    (s : ProcState) (raw : Dataset)
    (hraw : s.gui.rawData = some raw)
    (hsucc : (update_analysis env w title s).2 = none) :
    (update_analysis env w title s).1.gui.data =
      some { raw with applied :=
        raw.applied ++ (make_config w).process_params } ∧
    (update_analysis env w title s).1.gui.codeSnippet =
      some (get_vires_code env w) ∧
    (update_analysis env w title s).1.gui.cliCommand =
      some (get_cli env w) ∧
    (update_analysis env w title s).1.gui.isLoading = false := by
  unfold update_analysis at hsucc ⊢
  rw [hraw] at hsucc ⊢
  simp only [logMsg, set_loading, raise_exit] at hsucc ⊢
  repeat' split at hsucc
  all_goals simp_all [apply_processes_none]

/-- update_input_data never writes the cache slot. -/
theorem update_input_data_cache (env : Env) (w : Widgets) (s : ProcState) :
    (update_input_data env w s).1.cache = s.cache := by
  unfold update_input_data
  simp only [logMsg, set_loading, raise_exit]
  repeat' split
  all_goals simp [update_analysis_cache]

/-- Past its guard, update_input_data performs exactly one fetch I/O attempt. -/
theorem update_input_data_fetchCount (env : Env) (w : Widgets) (s : ProcState)
    (hguard : ¬(using_cdf_input w ∧ ¬ w.fileDropperValue)) :
    (update_input_data env w s).1.fetchCount = s.fetchCount + 1 := by
  unfold update_input_data
  rw [if_neg hguard]
  simp only [logMsg, set_loading, raise_exit]
  repeat' split
  all_goals simp [update_analysis_fetchCount]

/-- A successful update_input_data run past its guard has fetched new raw
data, replaced both retained handles (the processed one fully processed with
the current chain) and refreshed the snippet panes. -/
theorem update_input_data_success (env : Env) (w : Widgets) (s : ProcState)
    (hguard : ¬(using_cdf_input w ∧ ¬ w.fileDropperValue))
    (hsucc : (update_input_data env w s).2 = none) :
    ∃ k, env.fetchResult = .ok k ∧
      (update_input_data env w s).1.gui.rawData =
        some { content := k, applied := [], nonempty := env.fetchNonempty } ∧
      (update_input_data env w s).1.gui.data =
        some { content := k, applied := (make_config w).process_params
             , nonempty := env.fetchNonempty } ∧
      (update_input_data env w s).1.gui.codeSnippet =
        some (get_vires_code env w) ∧
      (update_input_data env w s).1.gui.cliCommand = some (get_cli env w) := by
  unfold update_input_data at hsucc ⊢
  rw [if_neg hguard] at hsucc ⊢
  simp only [logMsg, set_loading, raise_exit] at hsucc ⊢
  repeat' split at hsucc
  all_goals simp_all [update_analysis_rawData]
  obtain ⟨h1, h2, h3, _⟩ :=
    update_analysis_success env w _ _ _ rfl hsucc
  rw [h1, h2, h3]
  simp

/-- A failing update_input_data run logs the error and clears the loading
flag; when the fetch itself raised, neither retained handle nor any pane has
been touched, while after a successful fetch the raw handle already holds the
newly fetched data. -/
theorem update_input_data_fail (env : Env) (w : Widgets) (s : ProcState)
    (e : String)
    (hfail : (update_input_data env w s).2 = some e) :
    (("error", "Error fetching data: " ++ e) ∈
        (update_input_data env w s).1.gui.logs ∨
     ("error", "Error during analysis: " ++ e) ∈
        (update_input_data env w s).1.gui.logs) ∧
    (update_input_data env w s).1.gui.isLoading = false ∧
    (∀ e0, env.fetchResult = .error e0 →
      (update_input_data env w s).1.gui.rawData = s.gui.rawData ∧
      (update_input_data env w s).1.gui.data = s.gui.data ∧
      (update_input_data env w s).1.gui.dataView = s.gui.dataView ∧
      (update_input_data env w s).1.gui.codeSnippet = s.gui.codeSnippet ∧
      (update_input_data env w s).1.gui.cliCommand = s.gui.cliCommand ∧
      (update_input_data env w s).1.gui.quicklook = s.gui.quicklook) ∧
    (∀ k, env.fetchResult = .ok k →
      (update_input_data env w s).1.gui.rawData =
        some { content := k, applied := [], nonempty := env.fetchNonempty } ∧
      (update_input_data env w s).1.gui.data =
        some (apply_processes env
          { content := k, applied := [], nonempty := env.fetchNonempty }
          (make_config w).process_params).1) := by
  unfold update_input_data at hfail ⊢
  split at hfail
  case isTrue h => simp at hfail
  case isFalse h =>
    rw [if_neg h]
    simp only [logMsg, set_loading, raise_exit] at hfail ⊢
    repeat' split at hfail
    all_goals simp_all [update_analysis_rawData]
    obtain ⟨h1, h2, h3, h4⟩ := update_analysis_fail env w _ _ _ hfail
    refine ⟨Or.inr h1, h3, ?_⟩
    have hd := h4 _ rfl
    simpa using hd

end TFA

/-- C5: update_analysis (reprocess) invoked with no raw data present sets the
fetch-data-first title and logs a warning, and leaves the cache slot, the
raw and processed handles, every rendered pane and the fetch counter
unchanged, raising nothing. -/
theorem c5_no_data_guard (env : TFA.Env) (w : TFA.Widgets) (title : String)
    (s : TFA.ProcState) (h : s.gui.rawData = none) :
    (TFA.update_analysis env w title s).2 = none ∧
    (TFA.update_analysis env w title s).1.cache = s.cache ∧
    (TFA.update_analysis env w title s).1.gui.rawData = none ∧
    (TFA.update_analysis env w title s).1.gui.data = s.gui.data ∧
    (TFA.update_analysis env w title s).1.gui.dataView = s.gui.dataView ∧
    (TFA.update_analysis env w title s).1.gui.codeSnippet = s.gui.codeSnippet ∧
    (TFA.update_analysis env w title s).1.gui.cliCommand = s.gui.cliCommand ∧
    (TFA.update_analysis env w title s).1.gui.quicklook = s.gui.quicklook ∧
    (TFA.update_analysis env w title s).1.gui.outputTitle =
      some "Please fetch data first" ∧
    (TFA.update_analysis env w title s).1.gui.logs =
      s.gui.logs ++ [("warning", "No data available for analysis")] ∧
    (TFA.update_analysis env w title s).1.fetchCount = s.fetchCount := by
  unfold TFA.update_analysis
  rw [h]
  simp [TFA.logMsg, h]

/-- Concrete collaborator environment where every external call succeeds,
used to instantiate witness theorems. -/
def envOk : TFA.Env :=
  { fetchResult := .ok 7
  , fetchNonempty := true
  , stepFails := fun _ _ => false
  , reprHtmlFails := fun _ => false
  , reprHtmlOf := fun d => "html" ++ toString d.content
  , quicklookFails := fun _ => false
  , quicklookOf := fun d t => ⟨d, t.1, t.2⟩
  , pprinterOf := fun _ => "cfg"
  , yamlOf := fun _ => "yaml"
  , viresTemplate := fun s => s
  , cliTemplate := fun s => s }

/-- Concrete environment whose TFA_Clean step raises. -/
def envCleanFails : TFA.Env :=
  { envOk with stepFails := fun _ s =>
      match s with
      | .clean _ _ _ => true
      | _ => false }

/-- Concrete environment whose fetch raises. -/
def envFetchFails : TFA.Env :=
  { envOk with fetchResult := .error "connection refused" }

/-- Fresh process state: empty cache slot, fresh panes, no fetches yet. -/
def s0 : TFA.ProcState :=
  { cache := none, gui := TFA.initGui, fetchCount := 0 }

/-- Concrete raw dataset as produced by a successful fetch in envOk. -/
def rawOk : TFA.Dataset := { content := 7, applied := [], nonempty := true }

/-- Concrete raw dataset of an earlier fetch. -/
def raw5 : TFA.Dataset := { content := 5, applied := [], nonempty := true }

/-- Concrete processed dataset derived from raw5 with the default chain. -/
def proc5 : TFA.Dataset :=
  { content := 5, applied := TFA.default_config.process_params, nonempty := true }

/-- Concrete cache entry of an earlier successful load. -/
def cache5 : TFA.CacheEntry :=
  { raw_data := some raw5, data := some proc5, figure := none
  , data_view := some "v", code_snippet := some "c", cli_command := some "k" }

/-- Process state holding previously fetched data and a populated cache
entry, as after an earlier successful load. -/
def sLoaded : TFA.ProcState :=
  { cache := some cache5
  , gui := { TFA.initGui with rawData := some raw5, data := some proc5 }
  , fetchCount := 1 }

/-- C4: update_analysis (reprocess) with raw data present performs no fetch
I/O and leaves the raw handle unchanged; the configured chain is exactly
TFA_Preprocess, TFA_Clean, TFA_Filter, TFA_Wavelet with the current widget
values in that order; and when no collaborator raises (non-CDF mode,
non-empty data) the processed handle is replaced by a fresh copy of raw with
the full chain applied and the data view and quicklook panes are re-rendered
from it. -/
theorem c4_reprocess_no_fetch (env : TFA.Env) (w : TFA.Widgets)
    (title : String) (s : TFA.ProcState) (raw : TFA.Dataset)
    (hraw : s.gui.rawData = some raw) :
    (TFA.make_config w).process_params =
      [ TFA.ProcStep.preprocess (TFA.get_data_product w) "B_NEC"
          w.preprocessActiveComponent w.preprocessSamplingRate false
      , TFA.ProcStep.clean w.cleanWindowSize w.cleanMethod w.cleanMultiplier
      , TFA.ProcStep.filter w.filterCutoff
      , TFA.ProcStep.wavelet w.waveletMinFrequency w.waveletMaxFrequency
          w.waveletDj ] ∧
    (TFA.update_analysis env w title s).1.fetchCount = s.fetchCount ∧
    (TFA.update_analysis env w title s).1.cache = s.cache ∧
    (TFA.update_analysis env w title s).1.gui.rawData = some raw ∧
    ((∀ d st, env.stepFails d st = false) → raw.nonempty = true →
      TFA.using_cdf_input w = false → (∀ d, env.reprHtmlFails d = false) →
      (∀ d, env.quicklookFails d = false) →
      (TFA.update_analysis env w title s).1.gui.data =
        some { raw with applied :=
          raw.applied ++ (TFA.make_config w).process_params } ∧
      (TFA.update_analysis env w title s).1.gui.dataView =
        some (env.reprHtmlOf { raw with applied :=
          raw.applied ++ (TFA.make_config w).process_params }) ∧
      (TFA.update_analysis env w title s).1.gui.quicklook =
        some (env.quicklookOf { raw with applied :=
            raw.applied ++ (TFA.make_config w).process_params }
          (w.startTimeIso, w.endTimeIso)) ∧
      (TFA.update_analysis env w title s).2 = none) := by
  refine ⟨rfl, (TFA.update_analysis_frame env w title s).2.1,
    (TFA.update_analysis_frame env w title s).1,
    by rw [TFA.update_analysis_rawData, hraw], ?_⟩
  intro hok hne hcdf hrepr hql
  unfold TFA.update_analysis
  rw [hraw]
  simp [TFA.apply_processes_ok env hok, hne, hcdf, hrepr, hql,
    TFA.logMsg, TFA.set_loading]

/-- Witness for c4_reprocess_no_fetch at a concrete loaded state. -/
theorem c4_reprocess_no_fetch_witness :
    sLoaded.gui.rawData = some raw5 ∧
    (TFA.update_analysis envOk TFA.default_widgets "# t" sLoaded).1.fetchCount
      = sLoaded.fetchCount ∧
    (TFA.update_analysis envOk TFA.default_widgets "# t" sLoaded).2 = none := by
  have h := c4_reprocess_no_fetch envOk TFA.default_widgets "# t" sLoaded
    raw5 rfl
  exact ⟨rfl, h.2.1, (h.2.2.2.2 (fun _ _ => rfl) rfl rfl (fun _ => rfl)
    (fun _ => rfl)).2.2.2⟩

/-- Cache entry stored by a fully successful _populate_tfa_cache run that
fetched content k: the raw dataset, the fully processed dataset, its
quicklook figure and data view, and the two placeholder snippet strings. -/
def precache_entry (env : TFA.Env) (k : Nat) : TFA.CacheEntry :=
  { raw_data :=
      some { content := k, applied := [], nonempty := env.fetchNonempty }
  , data :=
      some { content := k, applied := TFA.default_config.process_params
           , nonempty := env.fetchNonempty }
  , figure :=
      some (env.quicklookOf
        { content := k, applied := TFA.default_config.process_params
        , nonempty := env.fetchNonempty }
        ("2026-01-01T00:00:00", "2026-01-02T00:00:00"))
  , data_view :=
      some (env.reprHtmlOf
        { content := k, applied := TFA.default_config.process_params
        , nonempty := env.fetchNonempty })
  , code_snippet := some "# Code snippet will be generated on first use"
  , cli_command := some "# CLI command will be generated on first use" }

namespace DSECS

/-- Folding Nat.min over a list stays inside the initial element and the
list. -/
theorem foldl_min_mem (ks : List Nat) : ∀ k : Nat, ks.foldl Nat.min k ∈ k :: ks := by
  induction ks with
  | nil => intro k; simp [List.foldl]
  | cons a as ih =>
      intro k
      have h := ih (Nat.min k a)
      simp only [List.foldl]
      rcases List.mem_cons.1 h with h1 | h1
      · rcases Nat.le_total k a with hle | hle
        · rw [h1, show Nat.min k a = k from min_eq_left hle]
          simp
        · rw [h1, show Nat.min k a = a from min_eq_right hle]
          simp
      · simp [List.mem_cons.2 (Or.inr h1)]

/-- The minimum of a nonempty key list is one of the keys. -/
theorem minKey_mem (l : List Nat) (h : l ≠ []) : minKey l ∈ l := by
  cases l with
  | nil => exact absurd rfl h
  | cons k ks => exact foldl_min_mem ks k

/-- A key of the figure dict has a figure under it. -/
theorem lookup_of_mem_keys (figs : List (Nat × Fig)) (k : Nat)
    (h : k ∈ keyList figs) : ∃ f, figs.lookup k = some f := by
  induction figs with
  | nil => simp [keyList] at h
  | cons p ps ih =>
      simp only [keyList, List.map, List.mem_cons] at h
      by_cases he : k = p.1
      · have hb : (k == p.1) = true := by simp [he]
        exact ⟨p.2, by simp [List.lookup, hb]⟩
      · have hb : (k == p.1) = false := by simp [he]
        rcases h with h | h
        · exact absurd h he
        · obtain ⟨f, hf⟩ := ih (by simpa [keyList] using h)
          exact ⟨f, by simp [List.lookup, hb, hf]⟩

/-- Assigning the slider value leaves every other widget and player field
unchanged and makes the slider hold that value. -/
theorem set_slider_value_fields (v : Nat) (st : AnimSt) :
    (set_slider_value v st).sliderValue = v ∧
    (set_slider_value v st).playing = st.playing ∧
    (set_slider_value v st).callback = st.callback ∧
    (set_slider_value v st).figures = st.figures ∧
    (set_slider_value v st).sliderDisabled = st.sliderDisabled ∧
    (set_slider_value v st).playDisabled = st.playDisabled := by
  unfold set_slider_value update_animation_frame
  repeat' split
  all_goals simp_all

end DSECS

/-- C1 counterexample: an update_input_data invocation in which a processing
step raises after a successful fetch fails, yet has already replaced both the
raw and the processed handle — refuting the claim that every failing
invocation leaves the retained handles unchanged. -/
theorem c1_partial_mutation_counterexample :
    (TFA.update_input_data envCleanFails TFA.default_widgets sLoaded).2 =
      some "TFA_Clean" ∧
    (TFA.update_input_data envCleanFails TFA.default_widgets
        sLoaded).1.gui.rawData ≠ sLoaded.gui.rawData ∧
    (TFA.update_input_data envCleanFails TFA.default_widgets
        sLoaded).1.gui.data ≠ sLoaded.gui.data := by
  refine ⟨rfl, ?_, ?_⟩ <;> decide

/-- C1 amended: when update_input_data fails, the cache slot is untouched, an
error log entry is surfaced and the loading flag is cleared; when the fetch
itself raised, the retained handles and all panes are unchanged; but when the
failure came after a successful fetch, the raw handle has already been
replaced by the newly fetched dataset. -/
theorem c1_failure_effects (env : TFA.Env) (w : TFA.Widgets)
    (s : TFA.ProcState) (e : String)
    (hfail : (TFA.update_input_data env w s).2 = some e) :
    (TFA.update_input_data env w s).1.cache = s.cache ∧
    (("error", "Error fetching data: " ++ e) ∈
        (TFA.update_input_data env w s).1.gui.logs ∨
     ("error", "Error during analysis: " ++ e) ∈
        (TFA.update_input_data env w s).1.gui.logs) ∧
    (TFA.update_input_data env w s).1.gui.isLoading = false ∧
    (∀ e0, env.fetchResult = .error e0 →
      (TFA.update_input_data env w s).1.gui.rawData = s.gui.rawData ∧
      (TFA.update_input_data env w s).1.gui.data = s.gui.data ∧
      (TFA.update_input_data env w s).1.gui.dataView = s.gui.dataView ∧
      (TFA.update_input_data env w s).1.gui.codeSnippet = s.gui.codeSnippet ∧
      (TFA.update_input_data env w s).1.gui.cliCommand = s.gui.cliCommand ∧
      (TFA.update_input_data env w s).1.gui.quicklook = s.gui.quicklook) ∧
    (∀ k, env.fetchResult = .ok k →
      (TFA.update_input_data env w s).1.gui.rawData =
        some { content := k, applied := [], nonempty := env.fetchNonempty } ∧
      (TFA.update_input_data env w s).1.gui.data =
        some (TFA.apply_processes env
          { content := k, applied := [], nonempty := env.fetchNonempty }
          (TFA.make_config w).process_params).1) :=
  ⟨TFA.update_input_data_cache env w s, TFA.update_input_data_fail env w s e hfail⟩

/-- Witness for c1_failure_effects at the concrete failing-step run. -/
theorem c1_failure_effects_witness :
    (TFA.update_input_data envCleanFails TFA.default_widgets sLoaded).2 =
      some "TFA_Clean" ∧
    (TFA.update_input_data envCleanFails TFA.default_widgets sLoaded).1.cache
      = sLoaded.cache :=
  ⟨rfl, (c1_failure_effects envCleanFails TFA.default_widgets sLoaded
      "TFA_Clean" rfl).1⟩

/-- C2 counterexample: a successful update_input_data run started from a
state whose cache slot holds the entry of an earlier load leaves the cache
slot bit-for-bit unchanged even though the newly fetched raw handle differs
from the cached one — the cache slot is not overwritten by a subsequent
successful fetch. -/
theorem c2_cache_not_overwritten_counterexample :
    (TFA.update_input_data envOk TFA.default_widgets sLoaded).2 = none ∧
    (TFA.update_input_data envOk TFA.default_widgets sLoaded).1.cache =
      some cache5 ∧
    (TFA.update_input_data envOk TFA.default_widgets sLoaded).1.gui.rawData
      ≠ cache5.raw_data := by
  refine ⟨rfl, rfl, ?_⟩
  decide

/-- C2 amended: every successful run of update_input_data past its guard
replaces the retained raw and processed handles by the newly fetched and
fully processed data and refreshes the snippet panes, incrementing the fetch
counter by one — but the process-wide cache slot is left exactly as it was;
the slot is only written during startup. -/
theorem c2_success_effects (env : TFA.Env) (w : TFA.Widgets)
    (s : TFA.ProcState)
    (hguard : ¬(TFA.using_cdf_input w ∧ ¬ w.fileDropperValue))
    (hsucc : (TFA.update_input_data env w s).2 = none) :
    (TFA.update_input_data env w s).1.cache = s.cache ∧
    (TFA.update_input_data env w s).1.fetchCount = s.fetchCount + 1 ∧
    ∃ k, env.fetchResult = .ok k ∧
      (TFA.update_input_data env w s).1.gui.rawData =
        some { content := k, applied := [], nonempty := env.fetchNonempty } ∧
      (TFA.update_input_data env w s).1.gui.data =
        some { content := k
             , applied := (TFA.make_config w).process_params
             , nonempty := env.fetchNonempty } ∧
      (TFA.update_input_data env w s).1.gui.codeSnippet =
        some (TFA.get_vires_code env w) ∧
      (TFA.update_input_data env w s).1.gui.cliCommand =
        some (TFA.get_cli env w) :=
  ⟨TFA.update_input_data_cache env w s,
   TFA.update_input_data_fetchCount env w s hguard,
   TFA.update_input_data_success env w s hguard hsucc⟩

/-- Witness for c2_success_effects at the concrete successful run. -/
theorem c2_success_effects_witness :
    ¬(TFA.using_cdf_input TFA.default_widgets ∧
        ¬ TFA.default_widgets.fileDropperValue) ∧
    (TFA.update_input_data envOk TFA.default_widgets sLoaded).2 = none ∧
    (TFA.update_input_data envOk TFA.default_widgets sLoaded).1.cache =
      sLoaded.cache := by
  refine ⟨by decide, rfl, ?_⟩
  exact (c2_success_effects envOk TFA.default_widgets sLoaded
    (by decide) rfl).1

/-- C3 counterexample: a user-triggered analysis action in which a processing
step raises re-raises the exception out of the handler — refuting the claim
that no exception escapes the handler. -/
theorem c3_exception_escapes_counterexample :
    (TFA.update_analysis envCleanFails TFA.default_widgets
      "# SwarmPAL TFA Quicklook" sLoaded).2 = some "TFA_Clean" := rfl

/-- C3 amended: any error raised during the user-triggered fetch or analysis
actions is caught, converted into appended error-level log entries with a
traceback, and the loading indicator is cleared — but the handler then
re-raises the exception instead of swallowing it. -/
theorem c3_errors_logged_then_reraised (env : TFA.Env) (w : TFA.Widgets)
    (title : String) (s : TFA.ProcState) (e : String) :
    ((TFA.update_analysis env w title s).2 = some e →
      ("error", "Error during analysis: " ++ e) ∈
        (TFA.update_analysis env w title s).1.gui.logs ∧
      ("error", "traceback") ∈
        (TFA.update_analysis env w title s).1.gui.logs ∧
      (TFA.update_analysis env w title s).1.gui.isLoading = false) ∧
    ((TFA.update_input_data env w s).2 = some e →
      (("error", "Error fetching data: " ++ e) ∈
          (TFA.update_input_data env w s).1.gui.logs ∨
       ("error", "Error during analysis: " ++ e) ∈
          (TFA.update_input_data env w s).1.gui.logs) ∧
      (TFA.update_input_data env w s).1.gui.isLoading = false) :=
  ⟨fun h => ⟨(TFA.update_analysis_fail env w title s e h).1,
             (TFA.update_analysis_fail env w title s e h).2.1,
             (TFA.update_analysis_fail env w title s e h).2.2.1⟩,
   fun h => ⟨(TFA.update_input_data_fail env w s e h).1,
             (TFA.update_input_data_fail env w s e h).2.1⟩⟩

/-- Witness for c3_errors_logged_then_reraised at the concrete failing-step
run. -/
theorem c3_errors_logged_then_reraised_witness :
    (TFA.update_analysis envCleanFails TFA.default_widgets "# t" sLoaded).2 =
      some "TFA_Clean" ∧
    ("error", "Error during analysis: " ++ "TFA_Clean") ∈
      (TFA.update_analysis envCleanFails TFA.default_widgets "# t"
        sLoaded).1.gui.logs := by
  refine ⟨rfl, ?_⟩
  exact ((c3_errors_logged_then_reraised envCleanFails TFA.default_widgets
    "# t" sLoaded "TFA_Clean").1 rfl).1

/-- C6: cache round trip.  (i) A startup load whose fetch-and-process
succeeds stores into the cache slot exactly the handles and rendered
artifacts it produced.  (ii) A process or session start that finds the entry
present restores the raw and processed handles and every rendered artifact
identical to the stored ones, performing no fetch and no processing and
raising nothing.  (iii) The hard-coded precache configuration equals the
config built from the widget default values, and a start with the slot empty
(all collaborators succeeding) performs exactly one fetch-and-process and
stores its result into the slot. -/
theorem c6_cache_round_trip (env : TFA.Env) (w : TFA.Widgets)
    (s s1 : TFA.ProcState) (c : TFA.CacheEntry) :
    ((TFA.update_input_data env w
        { s with gui :=
            TFA.logMsg "info" "Starting TFA dashboard..." s.gui }).2 = none →
      (TFA.load_initial_data env w s).1.cache = some
        { raw_data := (TFA.load_initial_data env w s).1.gui.rawData
        , data := (TFA.load_initial_data env w s).1.gui.data
        , figure := (TFA.load_initial_data env w s).1.gui.quicklook
        , data_view := (TFA.load_initial_data env w s).1.gui.dataView
        , code_snippet := (TFA.load_initial_data env w s).1.gui.codeSnippet
        , cli_command := (TFA.load_initial_data env w s).1.gui.cliCommand }) ∧
    (s1.cache = some c →
      (TFA.module_start env w s1).2 = none ∧
      (TFA.module_start env w s1).1.fetchCount = s1.fetchCount ∧
      (TFA.module_start env w s1).1.gui.rawData = c.raw_data ∧
      (TFA.module_start env w s1).1.gui.data = c.data ∧
      (TFA.module_start env w s1).1.gui.quicklook = c.figure ∧
      (TFA.module_start env w s1).1.gui.dataView = c.data_view ∧
      (TFA.module_start env w s1).1.gui.codeSnippet = c.code_snippet ∧
      (TFA.module_start env w s1).1.gui.cliCommand = c.cli_command) ∧
    TFA.default_config = TFA.make_config TFA.default_widgets ∧
    (s.cache = none → (∀ d st, env.stepFails d st = false) →
      (∀ d, env.reprHtmlFails d = false) →
      (∀ d, env.quicklookFails d = false) →
      ∀ k, env.fetchResult = .ok k →
        (TFA.module_start env w s).2 = none ∧
        (TFA.module_start env w s).1.fetchCount = s.fetchCount + 1 ∧
        (TFA.module_start env w s).1.cache = some (precache_entry env k) ∧
        (TFA.module_start env w s).1.gui.rawData =
          (precache_entry env k).raw_data ∧
        (TFA.module_start env w s).1.gui.data = (precache_entry env k).data) := by
  refine ⟨?_, ?_, ?_, ?_⟩
  · intro hsucc
    unfold TFA.load_initial_data
    simp only [TFA.logMsg] at hsucc ⊢
    split
    · simp_all
    · simp [TFA.logMsg]
  · intro h
    unfold TFA.module_start TFA.populate_tfa_cache TFA.gui_init
    simp [TFA.logMsg, TFA.initGui, h]
  · rfl
  · intro hc hok hrepr hql k hf
    unfold TFA.module_start TFA.populate_tfa_cache
    rw [hc, hf]
    simp only [TFA.apply_processes_ok env hok, hrepr, hql, Bool.false_eq_true,
      or_self, if_false]
    unfold TFA.gui_init
    simp [TFA.logMsg, TFA.initGui, precache_entry]

/-- Witness for c6_cache_round_trip at a concrete loaded state and a
concrete fresh start. -/
theorem c6_cache_round_trip_witness :
    sLoaded.cache = some cache5 ∧
    (TFA.module_start envOk TFA.default_widgets sLoaded).1.gui.rawData =
      cache5.raw_data ∧
    (TFA.module_start envOk TFA.default_widgets sLoaded).1.fetchCount =
      sLoaded.fetchCount ∧
    s0.cache = none ∧
    (TFA.module_start envOk TFA.default_widgets s0).1.fetchCount =
      s0.fetchCount + 1 := by
  have h := c6_cache_round_trip envOk TFA.default_widgets s0 sLoaded cache5
  have h2 := h.2.1 rfl
  have h4 := h.2.2.2 rfl (fun _ _ => rfl) (fun _ => rfl) (fun _ => rfl) 7 rfl
  exact ⟨rfl, h2.2.2.1, h2.2.1, rfl, h4.2.1⟩

/-- Witness for c5_no_data_guard at a concrete fresh state. -/
theorem c5_no_data_guard_witness :
    s0.gui.rawData = none ∧
    (TFA.update_analysis envOk TFA.default_widgets "# t" s0).2 = none ∧
    (TFA.update_analysis envOk TFA.default_widgets "# t" s0).1.cache =
      s0.cache ∧
    (TFA.update_analysis envOk TFA.default_widgets "# t" s0).1.gui.outputTitle
      = some "Please fetch data first" := by
  have h := c5_no_data_guard envOk TFA.default_widgets "# t" s0 rfl
  exact ⟨rfl, h.1, h.2.1, h.2.2.2.2.2.2.2.2.1⟩


/-- Animation state of a player currently Playing over a single old frame,
its periodic callback registered with that frame list. -/
def stPlaying : DSECS.AnimSt :=
  { figures := [(0, ⟨0⟩)], playing := true, callback := some [0]
  , sliderValue := 0, sliderStart := 0, sliderEnd := 0
  , sliderDisabled := false, playDisabled := false, playName := "Pause"
  , displayed := .fig ⟨0⟩ }

/-- Newly rendered frame set with keys 0, 1, 2. -/
def newFigs : List (Nat × DSECS.Fig) := [(0, ⟨10⟩), (1, ⟨11⟩), (2, ⟨12⟩)]

/-- C7 counterexample: re-populating the frame set while the player is
Playing leaves it Playing, with the old periodic callback (still holding the
stale frame list) registered — the player is not forcibly returned to the
Stopped state. -/
theorem c7_repopulation_counterexample :
    stPlaying.playing = true ∧
    (DSECS.setup_animated_quicklook newFigs stPlaying).playing = true ∧
    (DSECS.setup_animated_quicklook newFigs stPlaying).callback = some [0] := by
  refine ⟨rfl, ?_, ?_⟩ <;> decide

/-- C7 amended: re-populating the frame set resets the frame slider to the
minimum available key, displays that frame and enables both controls when
the set is nonempty, and disables both controls and shows the placeholder
when it is empty — but in neither case does it change the playing state or
cancel a running timer. -/
theorem c7_repopulation_effects (figs : List (Nat × DSECS.Fig))
    (st : DSECS.AnimSt) :
    (DSECS.setup_animated_quicklook figs st).playing = st.playing ∧
    (DSECS.setup_animated_quicklook figs st).callback = st.callback ∧
    (DSECS.keyList figs ≠ [] →
      (DSECS.setup_animated_quicklook figs st).sliderValue =
        DSECS.minKey (DSECS.keyList figs) ∧
      (DSECS.setup_animated_quicklook figs st).sliderDisabled = false ∧
      (DSECS.setup_animated_quicklook figs st).playDisabled = false ∧
      ∃ f, figs.lookup (DSECS.minKey (DSECS.keyList figs)) = some f ∧
        (DSECS.setup_animated_quicklook figs st).displayed = .fig f) ∧
    (DSECS.keyList figs = [] →
      (DSECS.setup_animated_quicklook figs st).sliderDisabled = true ∧
      (DSECS.setup_animated_quicklook figs st).playDisabled = true ∧
      (DSECS.setup_animated_quicklook figs st).displayed =
        DSECS.AnimPane.placeholder) := by
  by_cases hkey : DSECS.keyList figs = []
  · unfold DSECS.setup_animated_quicklook DSECS.disable_animation_controls
    simp [hkey]
  · obtain ⟨f, hf⟩ :=
      DSECS.lookup_of_mem_keys figs _ (DSECS.minKey_mem _ hkey)
    have hv := DSECS.set_slider_value_fields
      (DSECS.minKey (DSECS.keyList figs))
      { st with figures := figs
              , sliderStart := DSECS.minKey (DSECS.keyList figs)
              , sliderEnd := DSECS.maxKey (DSECS.keyList figs)
              , sliderDisabled := false }
    unfold DSECS.setup_animated_quicklook
    simp only [hkey, if_false, hf]
    refine ⟨?_, ?_, ?_, ?_⟩
    · simp [hv.2.1]
    · simp [hv.2.2.1]
    · intro
      exact ⟨by simp [hv.1], by simp [hv.2.2.2.2.1], by simp, f, rfl, by simp⟩
    · intro hc
      exact hc.elim

/-- Witness for c7_repopulation_effects at the concrete playing state. -/
theorem c7_repopulation_effects_witness :
    DSECS.keyList newFigs ≠ [] ∧
    (DSECS.setup_animated_quicklook newFigs stPlaying).sliderValue =
      DSECS.minKey (DSECS.keyList newFigs) ∧
    (DSECS.setup_animated_quicklook newFigs stPlaying).playing =
      stPlaying.playing := by
  have h := c7_repopulation_effects newFigs stPlaying
  exact ⟨by decide, (h.2.2.1 (by decide)).1, h.1⟩

/-- Frame set with keys 0, 1, 2 for the animation example. -/
def figs012 : List (Nat × DSECS.Fig) := [(0, ⟨20⟩), (1, ⟨21⟩), (2, ⟨22⟩)]

/-- Animation player in the Stopped state over frames 0, 1, 2, at frame 0. -/
def stStopped : DSECS.AnimSt :=
  { figures := figs012, playing := false, callback := none
  , sliderValue := 0, sliderStart := 0, sliderEnd := 2
  , sliderDisabled := false, playDisabled := false, playName := "Play"
  , displayed := .fig ⟨20⟩ }

/-- C8: toggling play from Stopped over frames 0, 1, 2 registers the periodic
callback with that frame list; three timer ticks advance the current index
cyclically 0 to 1 to 2 back to 0; toggling while Playing cancels the timer
and stops the player (for every state); a manual scrub to index i always
sets the current index to i regardless of play state; and a scrub to 1
mid-playback is followed by a tick advancing to 2. -/
theorem c8_animation_ticks :
    (DSECS.toggle_animation stStopped).playing = true ∧
    (DSECS.toggle_animation stStopped).callback = some [0, 1, 2] ∧
    (DSECS.tick (DSECS.toggle_animation stStopped)).sliderValue = 1 ∧
    (DSECS.tick (DSECS.tick
      (DSECS.toggle_animation stStopped))).sliderValue = 2 ∧
    (DSECS.tick (DSECS.tick (DSECS.tick
      (DSECS.toggle_animation stStopped)))).sliderValue = 0 ∧
    (∀ st : DSECS.AnimSt, st.playing = true →
      (DSECS.toggle_animation st).callback = none ∧
      (DSECS.toggle_animation st).playing = false) ∧
    (∀ (i : Nat) (st : DSECS.AnimSt),
      (DSECS.set_slider_value i st).sliderValue = i) ∧
    (DSECS.set_slider_value 1
      (DSECS.toggle_animation stStopped)).sliderValue = 1 ∧
    (DSECS.tick (DSECS.set_slider_value 1
      (DSECS.toggle_animation stStopped))).sliderValue = 2 := by
  refine ⟨rfl, rfl, by decide, by decide, by decide, ?_, ?_, by decide,
    by decide⟩
  · intro st h
    unfold DSECS.toggle_animation
    simp only [h, if_true]
    split <;> simp_all
  · intro i st
    exact (DSECS.set_slider_value_fields i st).1

/-- Witness for c8_animation_ticks, instantiating its quantified parts at
the concrete playing state. -/
theorem c8_animation_ticks_witness :
    (DSECS.toggle_animation stStopped).playing = true ∧
    (DSECS.toggle_animation
      (DSECS.toggle_animation stStopped)).callback = none ∧
    (DSECS.set_slider_value 2 stStopped).sliderValue = 2 := by
  have h := c8_animation_ticks
  exact ⟨h.1, (h.2.2.2.2.2.1 (DSECS.toggle_animation stStopped) h.1).1,
    h.2.2.2.2.2.2.1 2 stStopped⟩

/-- C9: the data-view rendering is a total function of the loaded dataset —
with nothing loaded it renders the no-data placeholder instead of raising;
when the primary html repr raises it renders the pre-wrapped textual dump
instead, which contains the type name whenever the textual repr of the
collaborator does; and when the textual dump also raises it renders a
diagnostic that contains the type name of the object and, when a dict of
attributes is available, the rendered attribute list. -/
theorem c9_data_view_fallbacks (d : DSECS.DataHandle) (e e2 s : String) :
    DSECS.update_data_view none = "<p>No data loaded</p>" ∧
    (d.reprHtmlR = .ok s → DSECS.update_data_view (some d) = s) ∧
    (d.reprHtmlR = .error e → d.strR = .ok s →
      DSECS.update_data_view (some d) =
        "<pre style=\x27white-space: pre-wrap; font-family: monospace; font-size: 12px; max-height: 400px; overflow-y: auto;\x27>"
          ++ s ++ "</pre>" ∧
      (∀ a b : String, s = a ++ d.typeName ++ b →
        ∃ a2 b2 : String,
          DSECS.update_data_view (some d) = a2 ++ d.typeName ++ b2)) ∧
    (d.reprHtmlR = .error e → d.strR = .error e2 →
      (∃ a2 b2 : String,
        DSECS.update_data_view (some d) = a2 ++ d.typeName ++ b2) ∧
      (∀ attrs, d.dictAttrs = some attrs →
        ∃ a3 b3 : String,
          DSECS.update_data_view (some d) = a3 ++ attrs ++ b3)) := by
  refine ⟨rfl, ?_, ?_, ?_⟩
  · intro h
    simp [DSECS.update_data_view, h]
  · intro h1 h2
    constructor
    · simp [DSECS.update_data_view, h1, h2]
    · intro a b hs
      refine ⟨"<pre style=\x27white-space: pre-wrap; font-family: monospace; font-size: 12px; max-height: 400px; overflow-y: auto;\x27>"
          ++ a, b ++ "</pre>", ?_⟩
      simp [DSECS.update_data_view, h1, h2, hs, String.append_assoc]
  · intro h1 h2
    constructor
    · cases hA : d.dictAttrs with
      | none =>
          refine ⟨"<pre>" ++ ("❌ Error displaying data: " ++ e ++ "\n"
            ++ "Fallback error: " ++ e2 ++ "\n" ++ "Data type: ")
            , "\n" ++ "</pre>", ?_⟩
          simp [DSECS.update_data_view, h1, h2, hA, String.append_assoc]
      | some attrs =>
          refine ⟨"<pre>" ++ ("❌ Error displaying data: " ++ e ++ "\n"
            ++ "Fallback error: " ++ e2 ++ "\n" ++ "Data type: ")
            , "\n" ++ "Attributes: " ++ attrs ++ "</pre>", ?_⟩
          simp [DSECS.update_data_view, h1, h2, hA, String.append_assoc]
    · intro attrs hA
      refine ⟨"<pre>" ++ ("❌ Error displaying data: " ++ e ++ "\n"
        ++ "Fallback error: " ++ e2 ++ "\n" ++ "Data type: "
        ++ d.typeName ++ "\n" ++ "Attributes: "), "</pre>", ?_⟩
      simp [DSECS.update_data_view, h1, h2, hA, String.append_assoc]

/-- Dataset handle whose primary html repr raises while its textual repr
succeeds and starts with its type name, as xarray reprs do. -/
def dFallback : DSECS.DataHandle :=
  { reprHtmlR := .error "boom", strR := .ok "<DataTree>xyz"
  , typeName := "DataTree", dictAttrs := some "[a, b]", groupsStr := "" }

/-- Witness for c9_data_view_fallbacks at the concrete raising handle. -/
theorem c9_data_view_fallbacks_witness :
    dFallback.reprHtmlR = .error "boom" ∧
    dFallback.strR = .ok "<DataTree>xyz" ∧
    DSECS.update_data_view (some dFallback) =
      "<pre style=\x27white-space: pre-wrap; font-family: monospace; font-size: 12px; max-height: 400px; overflow-y: auto;\x27>"
        ++ "<DataTree>xyz" ++ "</pre>" :=
  ⟨rfl, rfl,
    ((c9_data_view_fallbacks dFallback "boom" "x" "<DataTree>xyz").2.2.1
      rfl rfl).1⟩

/-- Dropper holding an uploaded file whose temp-file materialisation raises
when temp_file.name is read, before the filename local is assigned. -/
def dropBroken : DSECS.NcDropper :=
  { value := true
  , tempFileNameR := .error "OSError: could not create temp file"
  , fileInMemNameR := .ok "results.nc" }

/-- Dropper whose file accesses succeed. -/
def dropOk : DSECS.NcDropper :=
  { value := true
  , tempFileNameR := .ok "/tmp/upload.nc"
  , fileInMemNameR := .ok "results.nc" }

/-- Collaborators whose open_datatree raises on every path. -/
def dsEnvOpenFails : DSECS.DsEnv :=
  { openDatatree := fun _ => .error "not a netcdf file"
  , quicklookFigs := fun _ => .ok []
  , codeR := fun _ _ => .ok "code" }

/-- Fresh DSECS explorer state. -/
def dsState0 : DSECS.DsState :=
  { statusInfo := "Ready to fetch data...", data := none
  , preprocessed := false, analyzed := false
  , dataViewPane := "", codePane := "", anim := stStopped }

/-- C10: evaluation of the code at the failing input.  When the exception is
raised while reading temp_file.name — before the filename local is assigned —
the except handler itself raises UnboundLocalError and leaves the status
message untouched, contradicting the claim that the handler always completes
and sets a status naming the uploaded file; when the failure comes after the
filename local is assigned (here open_datatree raising), the handler does
complete and sets a status naming the file. -/
theorem c10_handler_unbound_local :
    (DSECS.load_netcdf_data dsEnvOpenFails dropBroken dsState0).2 =
      some "UnboundLocalError: filename" ∧
    (DSECS.load_netcdf_data dsEnvOpenFails dropBroken dsState0).1.statusInfo
      = dsState0.statusInfo ∧
    (DSECS.load_netcdf_data dsEnvOpenFails dropOk dsState0).2 = none ∧
    (DSECS.load_netcdf_data dsEnvOpenFails dropOk dsState0).1.statusInfo =
      "❌ **Failed to load file \x27" ++ "results.nc" ++ "\x27:** "
        ++ "not a netcdf file"
        ++ "<br><details><summary>Click for details</summary><pre>traceback</pre></details>" :=
  ⟨rfl, rfl, rfl, rfl⟩
